import Mathlib

/-!
Verification of the ZeroPadding3D operator
(src/src/layers/convolutional/ZeroPadding3D.js).

The operator zero-pads a rank-4 tensor (three spatial axes plus a channel
axis) along each spatial axis. We embed the data model shallowly:

* a tensor is a rank-4 shape together with a total valuation of indices
  (the valuation outside the shape is irrelevant; theorems quantify over
  in-range indices where it matters);
* `ops.assign(dst.hi(...).lo(...), src)` (ndarray-ops rectangular-region
  assignment) becomes `assignRegion`;
* `tensor.transpose(1,2,3,0)` / `tensor.transpose(3,0,1,2)` (ndarray axis
  permutations) become `transpose1230` / `transpose3012`;
* `new Tensor([], shape)` (zero-filled allocation) becomes `zeroTensor`.

The GPU path additionally involves collaborators that are part of the
repository but outside the given sources (the Tensor 2D-texture encoding
`../../Tensor` and the gather shader `../../webgl/mapInput.glsl`); those
parts are modelled from the spec and marked as such on their definitions.
-/

/-- Shape of a rank-4 tensor, mirroring the 4-element shape arrays of the
source (`this.inputShape`, `this.outputShape`). -/
structure Shape4 where
  s0 : Nat
  s1 : Nat
  s2 : Nat
  s3 : Nat
deriving DecidableEq, Repr

/-- Rank-4 tensor: a shape plus a total valuation of 4D indices. Values are
integers (the claims are value-generic; the source stores floats on the data
path and `Int32` entries on the index-map path). -/
structure Tensor4 where
  shape : Shape4
  data : Nat → Nat → Nat → Nat → Int

/-- Zero-filled tensor of a given shape, mirroring `new Tensor([], shape)`
(source line 80), whose backing buffer is zero-initialized. -/
def zeroTensor (s : Shape4) : Tensor4 :=
  ⟨s, fun _ _ _ _ => 0⟩

/-- Constant-filled tensor of a given shape, mirroring
`new Tensor([], shape)` followed by `ops.assigns(tensor, v)`
(source lines 113 and 134). -/
def constTensor (s : Shape4) (v : Int) : Tensor4 :=
  ⟨s, fun _ _ _ _ => v⟩

/-- Rectangular-region assignment
`ops.assign(dst.tensor.hi(hi0,hi1,hi2,hi3).lo(lo0,lo1,lo2,lo3), src.tensor)`
(source lines 81-91 and 135): inside the half-open box `[lo, hi)` the
destination takes the source value at the offset-shifted index; elsewhere it
is unchanged. -/
def assignRegion (dst : Tensor4) (lo0 lo1 lo2 lo3 hi0 hi1 hi2 hi3 : Nat)
    (src : Tensor4) : Tensor4 :=
  ⟨dst.shape, fun i j k l =>
    if lo0 ≤ i ∧ i < hi0 ∧ lo1 ≤ j ∧ j < hi1 ∧ lo2 ≤ k ∧ k < hi2 ∧
        lo3 ≤ l ∧ l < hi3 then
      src.data (i - lo0) (j - lo1) (k - lo2) (l - lo3)
    else
      dst.data i j k l⟩

/-- Axis permutation `x.tensor.transpose(1, 2, 3, 0)` (source line 70):
result axis `i` is source axis `(1,2,3,0)[i]`, converting a channels-first
buffer `[c,s0,s1,s2]` to channels-last `[s0,s1,s2,c]`. -/
def transpose1230 (x : Tensor4) : Tensor4 :=
  ⟨⟨x.shape.s1, x.shape.s2, x.shape.s3, x.shape.s0⟩,
    fun i j k l => x.data l i j k⟩

/-- Axis permutation `x.tensor.transpose(3, 0, 1, 2)` (source lines 95-96):
result axis `i` is source axis `(3,0,1,2)[i]`, converting a channels-last
buffer `[s0,s1,s2,c]` back to channels-first `[c,s0,s1,s2]`. -/
def transpose3012 (x : Tensor4) : Tensor4 :=
  ⟨⟨x.shape.s3, x.shape.s0, x.shape.s1, x.shape.s2⟩,
    fun i j k l => x.data j k l i⟩

/-- Data-format selector, `attrs.data_format` in the source constructor. -/
inductive DataFormat where
  | channels_last
  | channels_first
deriving DecidableEq, Repr

/-- Normalized padding specification: `this.padding` after the constructor,
a triple of `(before, after)` pairs `[[p00,p01],[p10,p11],[p20,p21]]` for the
three spatial axes. Entries are natural numbers (the spec's non-negativity
precondition). -/
structure PaddingSpec where
  p00 : Nat
  p01 : Nat
  p10 : Nat
  p11 : Nat
  p20 : Nat
  p21 : Nat
deriving DecidableEq, Repr

/-- Raw `attrs.padding` argument accepted by the constructor: a scalar, a
flat triple, or a triple of pairs. -/
inductive PaddingAttr where
  | scalar (n : Nat)
  | triple (a b c : Nat)
  | pairs (p00 p01 p10 p11 p20 p21 : Nat)
deriving DecidableEq, Repr

/-- Padding normalization performed by the constructor (source lines 24-35):
a scalar `n` expands to `[[n,n],[n,n],[n,n]]`, a flat triple `[a,b,c]` to
`[[a,a],[b,b],[c,c]]`, and a triple of pairs is taken as is. -/
def normalizePadding : PaddingAttr → PaddingSpec
  | .scalar n => ⟨n, n, n, n, n, n⟩
  | .triple a b c => ⟨a, a, b, b, c, c⟩
  | .pairs a b c d e f => ⟨a, b, c, d, e, f⟩

/-- Core of `_callCPU` in channels-last buffer order (source lines 73-91):
compute the output shape, allocate a zero-filled output, and copy the input
into the sub-region starting at the before-paddings. -/
def padChannelsLast (p : PaddingSpec) (x : Tensor4) : Tensor4 :=
  let inputShape := x.shape
  let outputShape : Shape4 :=
    ⟨inputShape.s0 + p.p00 + p.p01,
     inputShape.s1 + p.p10 + p.p11,
     inputShape.s2 + p.p20 + p.p21,
     inputShape.s3⟩
  assignRegion (zeroTensor outputShape)
    p.p00 p.p10 p.p20 0
    (inputShape.s0 + p.p00) (inputShape.s1 + p.p10) (inputShape.s2 + p.p20)
    inputShape.s3 x

/-- The CPU path `_callCPU` (source lines 67-98). The source mutates
`x.tensor` in place (transpose to channels-last, pad, transpose back); we
return the pair `(this.output, x.tensor after the call)` so that the effect
on the caller's input is part of the model. -/
def callCPU (df : DataFormat) (p : PaddingSpec) (x : Tensor4) :
    Tensor4 × Tensor4 :=
  let x1 := if df = .channels_first then transpose1230 x else x
  let output := padChannelsLast p x1
  if df = .channels_first then
    (transpose3012 output, transpose3012 x1)
  else
    (output, x1)

/-- Per-instance mutable state relevant to the GPU path: `this.indexMap`
(absent until `_createIndexMap` builds it, source line 107) and
`this.output` (absent until `_callGPU` allocates it, source line 174). The
output buffer is modelled by the logical shape it was allocated with; its
numeric contents are rewritten by the shader on every call and are returned
separately by `callGPU`. -/
structure GPUState where
  indexMap : Option Tensor4
  output : Option Shape4

/-- Input tensor as seen by the GPU path. Modelled from the spec: fields
beyond the logical values come from the external Tensor abstraction
(`../../Tensor`, not among the given sources) — `originalShape` is the
logical 4D shape recorded when the tensor was encoded into a 2D texture,
`indicesForReshaped` is the per-element linear-offset table into that
encoding, and `tex` is the texture contents indexed by linear offset. -/
structure GPUInput where
  originalShape : Shape4
  data : Nat → Nat → Nat → Nat → Int
  indicesForReshaped : Tensor4
  tex : Nat → Int

/-- Consistency of a GPU input with its own 2D-texture encoding. Modelled
from the spec: the externally supplied table `indicesForReshaped` holds, for
each element of the original input, its (non-negative) linear offset in the
input's 2D texture encoding, and the texture holds the input's value there. -/
def EncConsistent (x : GPUInput) : Prop :=
  ∀ i j k l, i < x.originalShape.s0 → j < x.originalShape.s1 →
    k < x.originalShape.s2 → l < x.originalShape.s3 →
    0 ≤ x.indicesForReshaped.data i j k l ∧
      x.tex (x.indicesForReshaped.data i j k l).toNat = x.data i j k l

/-- Slice start of the copy region in `_createIndexMap` (source lines
115-118): the channel axis comes first under channels-first, last under
channels-last. -/
def sliceStart (df : DataFormat) (p : PaddingSpec) : Nat × Nat × Nat × Nat :=
  if df = .channels_first then
    (0, p.p00, p.p10, p.p20)
  else
    (p.p00, p.p10, p.p20, 0)

/-- Slice end of the copy region in `_createIndexMap` (source lines
119-132). -/
def sliceEnd (df : DataFormat) (p : PaddingSpec) (inputShape : Shape4) :
    Nat × Nat × Nat × Nat :=
  if df = .channels_first then
    (inputShape.s0, inputShape.s1 + p.p00, inputShape.s2 + p.p10,
      inputShape.s3 + p.p20)
  else
    (inputShape.s0 + p.p00, inputShape.s1 + p.p10, inputShape.s2 + p.p20,
      inputShape.s3)

/-- Body of `_createIndexMap` past the presence guard (source lines
111-135): allocate an index tensor of the output shape, fill it with the
sentinel −1 (`ops.assigns(this.indexMap.tensor, -1)`), then assign the
externally supplied offset table into the copy region. We model the logical
4D contents; the subsequent `reshapeTo2D`/`reshapeTo2DSquare` re-encoding
for upload does not change the logical contents. -/
def buildIndexMap (df : DataFormat) (p : PaddingSpec)
    (inputShape outputShape : Shape4) (indices : Tensor4) : Tensor4 :=
  let start := sliceStart df p
  let stop := sliceEnd df p inputShape
  assignRegion (constTensor outputShape (-1))
    start.1 start.2.1 start.2.2.1 start.2.2.2
    stop.1 stop.2.1 stop.2.2.1 stop.2.2.2 indices

/-- The method `_createIndexMap` (source lines 106-143) including the
presence guard: if `this.indexMap` already exists the method returns without
rebuilding; otherwise it builds the map. Returns the resulting value of
`this.indexMap`. -/
def createIndexMap (st : GPUState) (df : DataFormat) (p : PaddingSpec)
    (inputShape outputShape : Shape4) (indicesForReshaped : Tensor4) :
    Tensor4 :=
  match st.indexMap with
  | some m => m
  | none => buildIndexMap df p inputShape outputShape indicesForReshaped

/-- Output shape computed by `_callGPU` (source lines 157-170): under
channels-first the channel axis (axis 0) is unchanged and axes 1-3 are
enlarged; under channels-last axes 0-2 are enlarged and the channel axis
(axis 3) is unchanged. -/
def outputShapeGPU (df : DataFormat) (p : PaddingSpec)
    (inputShape : Shape4) : Shape4 :=
  if df = .channels_first then
    ⟨inputShape.s0,
     inputShape.s1 + p.p00 + p.p01,
     inputShape.s2 + p.p10 + p.p11,
     inputShape.s3 + p.p20 + p.p21⟩
  else
    ⟨inputShape.s0 + p.p00 + p.p01,
     inputShape.s1 + p.p10 + p.p11,
     inputShape.s2 + p.p20 + p.p21,
     inputShape.s3⟩

/-- Modelled from the spec: the gather shader (`../../webgl/mapInput.glsl`,
not among the given sources) run by `webgl2.runProgram` writes, for each
output texel, the source-texture value at the linear offset named by the
index map, or zero where the sentinel −1 is present; expressed on logical 4D
coordinates, since the 2D reshape for upload and its inverse on readback
compose to the identity on logical coordinates. -/
def runMapInput (tex : Nat → Int) (indexMap : Tensor4) : Tensor4 :=
  ⟨indexMap.shape, fun i j k l =>
    let m := indexMap.data i j k l
    if m = -1 then 0 else tex m.toNat⟩

/-- The GPU path `_callGPU` (source lines 150-200): take the input's
original shape, compute the output shape, build or reuse the index map
(presence guard inside `_createIndexMap`), allocate the output buffer only
if absent (source line 174), run the gather program, and read back. Returns
the new instance state and the logical contents of the rendered output. -/
def callGPU (df : DataFormat) (p : PaddingSpec) (st : GPUState)
    (x : GPUInput) : GPUState × Tensor4 :=
  let inputShape := x.originalShape
  let outputShape := outputShapeGPU df p inputShape
  let indexMap :=
    createIndexMap st df p inputShape outputShape x.indicesForReshaped
  let outAlloc :=
    match st.output with
    | some s => s
    | none => outputShape
  (⟨some indexMap, some outAlloc⟩, runMapInput x.tex indexMap)

/-- Concrete input of the spec's first scenario: shape `[2,2,2,1]` filled
with ones. -/
def onesInput2221 : Tensor4 := ⟨⟨2, 2, 2, 1⟩, fun _ _ _ _ => 1⟩

/-- Concrete padding of the spec's first scenario: `[[1,0],[0,1],[0,0]]`. -/
def paddingScenario : PaddingSpec := ⟨1, 0, 0, 1, 0, 0⟩

/-- Small sample tensor used to instantiate hypothesis-bearing theorems. -/
def sampleTensor : Tensor4 := ⟨⟨1, 1, 1, 1⟩, fun _ _ _ _ => 7⟩

/-- C1: for every rank-4 channels-last input and normalized padding spec
with non-negative entries, the CPU-path output equals the input on the
copied region (starting at the before-paddings along each spatial axis, full
channel extent) and is zero at every output position outside that region. -/
theorem callCPU_copies_input_and_zeros_elsewhere (p : PaddingSpec)
    (x : Tensor4) :
    (∀ i j k l, i < x.shape.s0 → j < x.shape.s1 → k < x.shape.s2 →
      l < x.shape.s3 →
      ((callCPU .channels_last p x).1).data (p.p00 + i) (p.p10 + j)
        (p.p20 + k) l = x.data i j k l) ∧
    (∀ i j k l, i < x.shape.s0 + p.p00 + p.p01 →
      j < x.shape.s1 + p.p10 + p.p11 → k < x.shape.s2 + p.p20 + p.p21 →
      l < x.shape.s3 →
      ¬(p.p00 ≤ i ∧ i < p.p00 + x.shape.s0 ∧ p.p10 ≤ j ∧
        j < p.p10 + x.shape.s1 ∧ p.p20 ≤ k ∧ k < p.p20 + x.shape.s2) →
      ((callCPU .channels_last p x).1).data i j k l = 0) := by
  constructor
  · intro i j k l hi hj hk hl
    show (if p.p00 ≤ p.p00 + i ∧ p.p00 + i < x.shape.s0 + p.p00 ∧
          p.p10 ≤ p.p10 + j ∧ p.p10 + j < x.shape.s1 + p.p10 ∧
          p.p20 ≤ p.p20 + k ∧ p.p20 + k < x.shape.s2 + p.p20 ∧
          0 ≤ l ∧ l < x.shape.s3 then
        x.data (p.p00 + i - p.p00) (p.p10 + j - p.p10) (p.p20 + k - p.p20)
          (l - 0)
      else 0) = x.data i j k l
    rw [if_pos (by omega)]
    simp [Nat.add_sub_cancel_left]
  · intro i j k l hi hj hk hl hout
    show (if p.p00 ≤ i ∧ i < x.shape.s0 + p.p00 ∧
          p.p10 ≤ j ∧ j < x.shape.s1 + p.p10 ∧
          p.p20 ≤ k ∧ k < x.shape.s2 + p.p20 ∧
          0 ≤ l ∧ l < x.shape.s3 then
        x.data (i - p.p00) (j - p.p10) (k - p.p20) (l - 0)
      else 0) = 0
    rw [if_neg]
    intro h
    exact hout (by omega)

/-- Witness for `callCPU_copies_input_and_zeros_elsewhere` at a concrete
input and padding. -/
theorem callCPU_copies_input_and_zeros_elsewhere_witness :
    ((callCPU .channels_last ⟨1, 2, 3, 4, 5, 6⟩ sampleTensor).1).data 1 3 5 0 =
      sampleTensor.data 0 0 0 0 ∧
    ((callCPU .channels_last ⟨1, 2, 3, 4, 5, 6⟩ sampleTensor).1).data 0 0 0 0 =
      0 :=
  ⟨(callCPU_copies_input_and_zeros_elsewhere ⟨1, 2, 3, 4, 5, 6⟩
      sampleTensor).1 0 0 0 0 (by decide) (by decide) (by decide) (by decide),
   (callCPU_copies_input_and_zeros_elsewhere ⟨1, 2, 3, 4, 5, 6⟩
      sampleTensor).2 0 0 0 0 (by decide) (by decide) (by decide) (by decide)
      (by decide)⟩

/-- C2: the CPU-path output shape is the input shape with each spatial axis
enlarged by its before+after padding and the channel axis unchanged; under
channels-last the spatial axes are buffer axes 0-2 and the channel axis is
axis 3, under channels-first the channel axis is axis 0 and the spatial axes
are axes 1-3. -/
theorem callCPU_outputShape (p : PaddingSpec) (x : Tensor4) :
    ((callCPU .channels_last p x).1).shape =
      ⟨x.shape.s0 + p.p00 + p.p01, x.shape.s1 + p.p10 + p.p11,
       x.shape.s2 + p.p20 + p.p21, x.shape.s3⟩ ∧
    ((callCPU .channels_first p x).1).shape =
      ⟨x.shape.s0, x.shape.s1 + p.p00 + p.p01, x.shape.s2 + p.p10 + p.p11,
       x.shape.s3 + p.p20 + p.p21⟩ :=
  ⟨rfl, rfl⟩

/-- C5: padding a channels-last tensor by converting it to channels-first
buffer order, running the operator configured as channels-first, and
converting the result back to channels-last gives exactly the result of
running the operator configured as channels-last directly. -/
theorem callCPU_roundtrip_axis_order (p : PaddingSpec) (x : Tensor4) :
    transpose1230 ((callCPU .channels_first p (transpose3012 x)).1) =
      (callCPU .channels_last p x).1 :=
  rfl

/-- C9: scalar padding 2 normalizes to the pair-triple `[[2,2],[2,2],[2,2]]`,
and an operator configured with the scalar is extensionally the same
operator, on both the CPU and the GPU path, as one configured with the
explicit pair-triple. -/
theorem scalar_padding_two_normalizes_and_equivalent :
    normalizePadding (.scalar 2) = ⟨2, 2, 2, 2, 2, 2⟩ ∧
    (∀ df x, callCPU df (normalizePadding (.scalar 2)) x =
      callCPU df (normalizePadding (.pairs 2 2 2 2 2 2)) x) ∧
    (∀ df st x, callGPU df (normalizePadding (.scalar 2)) st x =
      callGPU df (normalizePadding (.pairs 2 2 2 2 2 2)) st x) :=
  ⟨rfl, fun _ _ => rfl, fun _ _ _ => rfl⟩

/-- C10: the CPU path leaves the caller's input tensor as it found it: in
channels-last mode the input is untouched, and in channels-first mode the
two in-place transpositions `(1,2,3,0)` and `(3,0,1,2)` compose to the
identity, so after the call the input has its original shape and contents. -/
theorem callCPU_preserves_input (df : DataFormat) (p : PaddingSpec)
    (x : Tensor4) :
    (callCPU df p x).2 = x := by
  cases df <;> rfl

/-- C6 counterexample: for the scenario input of shape `[2,2,2,1]` with
padding `[[1,0],[0,1],[0,0]]` in channels-last mode, the output shape is not
the claimed `[3,2,2,1]` — axis 1 is padded by `(before,after) = (0,1)` and
grows from 2 to 3, so the code produces `[3,3,2,1]`. -/
theorem scenario_output_shape_ne_claimed :
    ((callCPU .channels_last paddingScenario onesInput2221).1).shape ≠
      ⟨3, 2, 2, 1⟩ := by
  decide

/-- C6 amended: for the scenario input of shape `[2,2,2,1]` filled with 1s
and padding `[[1,0],[0,1],[0,0]]` in channels-last mode, the output shape is
`[3,3,2,1]`; the output slice at spatial index 0 along axis 0 is all zeros;
and the slice at indices 1-2 along axis 0 equals the original input with a
trailing zero row inserted at the far end of axis 1. -/
theorem scenario_output_amended :
    ((callCPU .channels_last paddingScenario onesInput2221).1).shape =
      ⟨3, 3, 2, 1⟩ ∧
    (∀ j : Fin 3, ∀ k : Fin 2,
      ((callCPU .channels_last paddingScenario onesInput2221).1).data 0
        j.val k.val 0 = 0) ∧
    (∀ i : Fin 2, ∀ j : Fin 2, ∀ k : Fin 2,
      ((callCPU .channels_last paddingScenario onesInput2221).1).data
        (1 + i.val) j.val k.val 0 =
        onesInput2221.data i.val j.val k.val 0) ∧
    (∀ i : Fin 2, ∀ k : Fin 2,
      ((callCPU .channels_last paddingScenario onesInput2221).1).data
        (1 + i.val) 2 k.val 0 = 0) := by
  refine ⟨rfl, ?_, ?_, ?_⟩ <;> decide

/-- C7: after the first GPU-path invocation has built the index map and
allocated the output buffer, any subsequent invocation — in particular one
whose input shape differs — leaves the instance state (both the cached index
map and the output-buffer allocation) completely unchanged. -/
theorem callGPU_cache_frozen_after_first_call (df : DataFormat)
    (p : PaddingSpec) (x1 x2 : GPUInput) :
    (callGPU df p (callGPU df p ⟨none, none⟩ x1).1 x2).1 =
      (callGPU df p ⟨none, none⟩ x1).1 :=
  rfl

/-- Unfolding lemma: pointwise contents of the shader result. -/
lemma runMapInput_data (tex : Nat → Int) (im : Tensor4) (i j k l : Nat) :
    (runMapInput tex im).data i j k l =
      if im.data i j k l = -1 then 0 else tex (im.data i j k l).toNat :=
  rfl

/-- Unfolding lemma: with an empty cache, `_createIndexMap` builds the map. -/
lemma createIndexMap_none (df : DataFormat) (p : PaddingSpec)
    (ish osh : Shape4) (ind : Tensor4) :
    createIndexMap ⟨none, none⟩ df p ish osh ind =
      buildIndexMap df p ish osh ind :=
  rfl

/-- Unfolding lemma: pointwise contents of the index map, channels-last. -/
lemma buildIndexMap_channels_last_data (p : PaddingSpec) (ish osh : Shape4)
    (ind : Tensor4) (i j k l : Nat) :
    (buildIndexMap .channels_last p ish osh ind).data i j k l =
      if p.p00 ≤ i ∧ i < ish.s0 + p.p00 ∧ p.p10 ≤ j ∧ j < ish.s1 + p.p10 ∧
          p.p20 ≤ k ∧ k < ish.s2 + p.p20 ∧ 0 ≤ l ∧ l < ish.s3 then
        ind.data (i - p.p00) (j - p.p10) (k - p.p20) (l - 0)
      else -1 :=
  rfl

/-- Unfolding lemma: pointwise contents of the index map, channels-first. -/
lemma buildIndexMap_channels_first_data (p : PaddingSpec) (ish osh : Shape4)
    (ind : Tensor4) (i j k l : Nat) :
    (buildIndexMap .channels_first p ish osh ind).data i j k l =
      if 0 ≤ i ∧ i < ish.s0 ∧ p.p00 ≤ j ∧ j < ish.s1 + p.p00 ∧
          p.p10 ≤ k ∧ k < ish.s2 + p.p10 ∧ p.p20 ≤ l ∧ l < ish.s3 + p.p20 then
        ind.data (i - 0) (j - p.p00) (k - p.p10) (l - p.p20)
      else -1 :=
  rfl

/-- Unfolding lemma: pointwise contents of the CPU output, channels-last. -/
lemma callCPU_channels_last_data (p : PaddingSpec) (x : Tensor4)
    (i j k l : Nat) :
    ((callCPU .channels_last p x).1).data i j k l =
      if p.p00 ≤ i ∧ i < x.shape.s0 + p.p00 ∧ p.p10 ≤ j ∧
          j < x.shape.s1 + p.p10 ∧ p.p20 ≤ k ∧ k < x.shape.s2 + p.p20 ∧
          0 ≤ l ∧ l < x.shape.s3 then
        x.data (i - p.p00) (j - p.p10) (k - p.p20) (l - 0)
      else 0 :=
  rfl

/-- Unfolding lemma: pointwise contents of the CPU output, channels-first
(the two transpositions pushed through the channels-last copy). -/
lemma callCPU_channels_first_data (p : PaddingSpec) (x : Tensor4)
    (i j k l : Nat) :
    ((callCPU .channels_first p x).1).data i j k l =
      if p.p00 ≤ j ∧ j < x.shape.s1 + p.p00 ∧ p.p10 ≤ k ∧
          k < x.shape.s2 + p.p10 ∧ p.p20 ≤ l ∧ l < x.shape.s3 + p.p20 ∧
          0 ≤ i ∧ i < x.shape.s0 then
        x.data (i - 0) (j - p.p00) (k - p.p10) (l - p.p20)
      else 0 :=
  rfl

/-- Core GPU/CPU agreement: for an encoding-consistent input, gathering
through the freshly built index map reproduces the CPU-path output pointwise,
in either data format. -/
theorem runMapInput_buildIndexMap_eq_callCPU (df : DataFormat)
    (p : PaddingSpec) (x : GPUInput) (hx : EncConsistent x) :
    (runMapInput x.tex (buildIndexMap df p x.originalShape
        (outputShapeGPU df p x.originalShape) x.indicesForReshaped)).shape =
      ((callCPU df p ⟨x.originalShape, x.data⟩).1).shape ∧
    ∀ i j k l,
      (runMapInput x.tex (buildIndexMap df p x.originalShape
          (outputShapeGPU df p x.originalShape)
          x.indicesForReshaped)).data i j k l =
        ((callCPU df p ⟨x.originalShape, x.data⟩).1).data i j k l := by
  cases df
  case channels_last =>
    refine ⟨rfl, ?_⟩
    intro i j k l
    rw [runMapInput_data, buildIndexMap_channels_last_data,
      callCPU_channels_last_data]
    dsimp only
    by_cases hC : p.p00 ≤ i ∧ i < x.originalShape.s0 + p.p00 ∧
        p.p10 ≤ j ∧ j < x.originalShape.s1 + p.p10 ∧
        p.p20 ≤ k ∧ k < x.originalShape.s2 + p.p20 ∧
        0 ≤ l ∧ l < x.originalShape.s3
    · simp only [if_pos hC]
      obtain ⟨h1, h2, h3, h4, h5, h6, h7, h8⟩ := hC
      obtain ⟨hnn, htex⟩ := hx (i - p.p00) (j - p.p10) (k - p.p20) (l - 0)
        (by omega) (by omega) (by omega) (by omega)
      have hne : x.indicesForReshaped.data (i - p.p00) (j - p.p10)
          (k - p.p20) (l - 0) ≠ -1 := by
        intro heq
        rw [heq] at hnn
        exact absurd hnn (by decide)
      rw [if_neg hne, htex]
    · simp only [if_neg hC]
      rfl
  case channels_first =>
    refine ⟨rfl, ?_⟩
    intro i j k l
    rw [runMapInput_data, buildIndexMap_channels_first_data,
      callCPU_channels_first_data]
    dsimp only
    by_cases hC : 0 ≤ i ∧ i < x.originalShape.s0 ∧
        p.p00 ≤ j ∧ j < x.originalShape.s1 + p.p00 ∧
        p.p10 ≤ k ∧ k < x.originalShape.s2 + p.p10 ∧
        p.p20 ≤ l ∧ l < x.originalShape.s3 + p.p20
    · simp only [if_pos hC]
      obtain ⟨h1, h2, h3, h4, h5, h6, h7, h8⟩ := hC
      obtain ⟨hnn, htex⟩ := hx (i - 0) (j - p.p00) (k - p.p10) (l - p.p20)
        (by omega) (by omega) (by omega) (by omega)
      have hne : x.indicesForReshaped.data (i - 0) (j - p.p00) (k - p.p10)
          (l - p.p20) ≠ -1 := by
        intro heq
        rw [heq] at hnn
        exact absurd hnn (by decide)
      rw [if_neg hne, htex]
      split
      next => rfl
      next hcc => exact (hcc (by omega)).elim
    · simp only [if_neg hC]
      rw [if_pos trivial]
      split
      next hcc =>
        obtain ⟨g1, g2, g3, g4, g5, g6, g7, g8⟩ := hcc
        exact (hC (by omega)).elim
      next => rfl

/-- C3: on a fresh instance, the GPU-path result after readback — each
output element taken from the source texture at the offset named by the
index map, or zero where the sentinel is present — agrees with the CPU-path
output in shape and in every element, for either data format, whenever the
input is consistent with its 2D-texture encoding. -/
theorem callGPU_matches_callCPU (df : DataFormat) (p : PaddingSpec)
    (x : GPUInput) (hx : EncConsistent x) :
    ((callGPU df p ⟨none, none⟩ x).2).shape =
      ((callCPU df p ⟨x.originalShape, x.data⟩).1).shape ∧
    ∀ i j k l,
      ((callGPU df p ⟨none, none⟩ x).2).data i j k l =
        ((callCPU df p ⟨x.originalShape, x.data⟩).1).data i j k l :=
  runMapInput_buildIndexMap_eq_callCPU df p x hx

/-- Sample GPU input used to instantiate hypothesis-bearing theorems:
a single-element tensor holding 5, encoded at linear offset 0. -/
def sampleGPUInput : GPUInput :=
  ⟨⟨1, 1, 1, 1⟩, fun _ _ _ _ => 5, ⟨⟨1, 1, 1, 1⟩, fun _ _ _ _ => 0⟩,
    fun _ => 5⟩

/-- The sample GPU input is consistent with its encoding. -/
lemma sampleGPUInput_consistent : EncConsistent sampleGPUInput :=
  fun _ _ _ _ _ _ _ _ => ⟨le_refl 0, rfl⟩

/-- Witness for `callGPU_matches_callCPU` at a concrete consistent input. -/
theorem callGPU_matches_callCPU_witness :
    ((callGPU .channels_last ⟨1, 1, 1, 1, 1, 1⟩ ⟨none, none⟩
        sampleGPUInput).2).data 1 1 1 0 =
      ((callCPU .channels_last ⟨1, 1, 1, 1, 1, 1⟩
        ⟨sampleGPUInput.originalShape, sampleGPUInput.data⟩).1).data 1 1 1 0 :=
  (callGPU_matches_callCPU .channels_last ⟨1, 1, 1, 1, 1, 1⟩ sampleGPUInput
    sampleGPUInput_consistent).2 1 1 1 0

/-- C4: with an empty cache, `_createIndexMap` produces a tensor of the
output shape whose every element outside the copy region is the sentinel −1
and whose copy region — channel axis first under channels-first, last under
channels-last — holds exactly the externally supplied offset table. -/
theorem createIndexMap_sentinel_and_copy_region (p : PaddingSpec)
    (ish : Shape4) (ind : Tensor4) :
    ((createIndexMap ⟨none, none⟩ .channels_last p ish
        (outputShapeGPU .channels_last p ish) ind).shape =
      outputShapeGPU .channels_last p ish ∧
     (∀ i j k l, i < ish.s0 + p.p00 + p.p01 → j < ish.s1 + p.p10 + p.p11 →
       k < ish.s2 + p.p20 + p.p21 → l < ish.s3 →
       ¬(p.p00 ≤ i ∧ i < p.p00 + ish.s0 ∧ p.p10 ≤ j ∧ j < p.p10 + ish.s1 ∧
         p.p20 ≤ k ∧ k < p.p20 + ish.s2) →
       (createIndexMap ⟨none, none⟩ .channels_last p ish
         (outputShapeGPU .channels_last p ish) ind).data i j k l = -1) ∧
     (∀ i j k l, i < ish.s0 → j < ish.s1 → k < ish.s2 → l < ish.s3 →
       (createIndexMap ⟨none, none⟩ .channels_last p ish
         (outputShapeGPU .channels_last p ish) ind).data
         (p.p00 + i) (p.p10 + j) (p.p20 + k) l = ind.data i j k l)) ∧
    ((createIndexMap ⟨none, none⟩ .channels_first p ish
        (outputShapeGPU .channels_first p ish) ind).shape =
      outputShapeGPU .channels_first p ish ∧
     (∀ i j k l, i < ish.s0 → j < ish.s1 + p.p00 + p.p01 →
       k < ish.s2 + p.p10 + p.p11 → l < ish.s3 + p.p20 + p.p21 →
       ¬(p.p00 ≤ j ∧ j < p.p00 + ish.s1 ∧ p.p10 ≤ k ∧ k < p.p10 + ish.s2 ∧
         p.p20 ≤ l ∧ l < p.p20 + ish.s3) →
       (createIndexMap ⟨none, none⟩ .channels_first p ish
         (outputShapeGPU .channels_first p ish) ind).data i j k l = -1) ∧
     (∀ i j k l, i < ish.s0 → j < ish.s1 → k < ish.s2 → l < ish.s3 →
       (createIndexMap ⟨none, none⟩ .channels_first p ish
         (outputShapeGPU .channels_first p ish) ind).data
         i (p.p00 + j) (p.p10 + k) (p.p20 + l) = ind.data i j k l)) := by
  refine ⟨⟨rfl, ?_, ?_⟩, rfl, ?_, ?_⟩
  · intro i j k l hi hj hk hl hout
    rw [createIndexMap_none, buildIndexMap_channels_last_data]
    split
    next h =>
      obtain ⟨h1, h2, h3, h4, h5, h6, h7, h8⟩ := h
      exact (hout (by omega)).elim
    next => rfl
  · intro i j k l hi hj hk hl
    rw [createIndexMap_none, buildIndexMap_channels_last_data]
    split
    next h => simp [Nat.add_sub_cancel_left]
    next h => exact (h (by omega)).elim
  · intro i j k l hi hj hk hl hout
    rw [createIndexMap_none, buildIndexMap_channels_first_data]
    split
    next h =>
      obtain ⟨h1, h2, h3, h4, h5, h6, h7, h8⟩ := h
      exact (hout (by omega)).elim
    next => rfl
  · intro i j k l hi hj hk hl
    rw [createIndexMap_none, buildIndexMap_channels_first_data]
    split
    next h => simp [Nat.add_sub_cancel_left]
    next h => exact (h (by omega)).elim

/-- Sample offset table used to instantiate hypothesis-bearing theorems. -/
def sampleIndices : Tensor4 := ⟨⟨1, 1, 1, 1⟩, fun _ _ _ _ => 9⟩

/-- Witness for `createIndexMap_sentinel_and_copy_region` at a concrete
padding, input shape and offset table. -/
theorem createIndexMap_sentinel_and_copy_region_witness :
    (createIndexMap ⟨none, none⟩ .channels_last ⟨1, 1, 1, 1, 1, 1⟩
        ⟨1, 1, 1, 1⟩
        (outputShapeGPU .channels_last ⟨1, 1, 1, 1, 1, 1⟩ ⟨1, 1, 1, 1⟩)
        sampleIndices).data 0 0 0 0 = -1 ∧
    (createIndexMap ⟨none, none⟩ .channels_last ⟨1, 1, 1, 1, 1, 1⟩
        ⟨1, 1, 1, 1⟩
        (outputShapeGPU .channels_last ⟨1, 1, 1, 1, 1, 1⟩ ⟨1, 1, 1, 1⟩)
        sampleIndices).data 1 1 1 0 = sampleIndices.data 0 0 0 0 :=
  ⟨(createIndexMap_sentinel_and_copy_region ⟨1, 1, 1, 1, 1, 1⟩ ⟨1, 1, 1, 1⟩
      sampleIndices).1.2.1 0 0 0 0 (by decide) (by decide) (by decide)
      (by decide) (by decide),
   (createIndexMap_sentinel_and_copy_region ⟨1, 1, 1, 1, 1, 1⟩ ⟨1, 1, 1, 1⟩
      sampleIndices).1.2.2 0 0 0 0 (by decide) (by decide) (by decide)
      (by decide)⟩

/-- C8: a second GPU-path invocation on the same instance with an input of
the identical shape (hence the identical externally supplied offset table)
reuses the cached index map and output-buffer allocation unchanged, and its
rendered result still agrees with the CPU-path output for the second input,
in shape and in every element. -/
theorem callGPU_repeat_same_shape_reuses_and_correct (df : DataFormat)
    (p : PaddingSpec) (x1 x2 : GPUInput)
    (hsh : x2.originalShape = x1.originalShape)
    (hifr : x2.indicesForReshaped = x1.indicesForReshaped)
    (hx2 : EncConsistent x2) :
    ((callGPU df p (callGPU df p ⟨none, none⟩ x1).1 x2).1.indexMap =
        (callGPU df p ⟨none, none⟩ x1).1.indexMap ∧
      (callGPU df p (callGPU df p ⟨none, none⟩ x1).1 x2).1.output =
        (callGPU df p ⟨none, none⟩ x1).1.output) ∧
    ((callGPU df p (callGPU df p ⟨none, none⟩ x1).1 x2).2).shape =
      ((callCPU df p ⟨x2.originalShape, x2.data⟩).1).shape ∧
    ∀ i j k l,
      ((callGPU df p (callGPU df p ⟨none, none⟩ x1).1 x2).2).data i j k l =
        ((callCPU df p ⟨x2.originalShape, x2.data⟩).1).data i j k l := by
  refine ⟨⟨rfl, rfl⟩, ?_⟩
  have e2 : (callGPU df p (callGPU df p ⟨none, none⟩ x1).1 x2).2 =
      runMapInput x2.tex (buildIndexMap df p x1.originalShape
        (outputShapeGPU df p x1.originalShape) x1.indicesForReshaped) := rfl
  rw [e2, ← hsh, ← hifr]
  exact runMapInput_buildIndexMap_eq_callCPU df p x2 hx2

/-- Witness for `callGPU_repeat_same_shape_reuses_and_correct`: two calls
with the same concrete input reuse the cache and render correctly. -/
theorem callGPU_repeat_same_shape_reuses_and_correct_witness :
    (callGPU .channels_last ⟨1, 1, 1, 1, 1, 1⟩
        (callGPU .channels_last ⟨1, 1, 1, 1, 1, 1⟩ ⟨none, none⟩
          sampleGPUInput).1 sampleGPUInput).1.indexMap =
      (callGPU .channels_last ⟨1, 1, 1, 1, 1, 1⟩ ⟨none, none⟩
        sampleGPUInput).1.indexMap ∧
    ((callGPU .channels_last ⟨1, 1, 1, 1, 1, 1⟩
        (callGPU .channels_last ⟨1, 1, 1, 1, 1, 1⟩ ⟨none, none⟩
          sampleGPUInput).1 sampleGPUInput).2).data 1 1 1 0 =
      ((callCPU .channels_last ⟨1, 1, 1, 1, 1, 1⟩
        ⟨sampleGPUInput.originalShape, sampleGPUInput.data⟩).1).data 1 1 1 0 :=
  ⟨(callGPU_repeat_same_shape_reuses_and_correct .channels_last
      ⟨1, 1, 1, 1, 1, 1⟩ sampleGPUInput sampleGPUInput rfl rfl
      sampleGPUInput_consistent).1.1,
   (callGPU_repeat_same_shape_reuses_and_correct .channels_last
      ⟨1, 1, 1, 1, 1, 1⟩ sampleGPUInput sampleGPUInput rfl rfl
      sampleGPUInput_consistent).2.2 1 1 1 0⟩
